import Mathlib

/-!
Verification development for the Lost and Found Board repository.

The repository is a browser client over a hosted relational store and an
image host.  This file gives a shallow embedding of its core logic:

- the domain entity `LostFoundItem` and the wire row shape, with the
  converters `rowToItem` and `itemToRow` from `src/services/supabase.ts`;
- the write path (`addLostFoundItem`, `updateLostFoundItem`) including the
  serialization rule that drops `undefined` keys from an update payload
  while `null` keys are written;
- the derived view computation of `App.tsx` (kind filter, status
  visibility, free text search);
- the image optimizer of `utils/imageOptimizer.ts` over an abstract
  compression oracle;
- the read path and subscription of `src/services/supabase.ts`;
- the preview lifecycle state machine of `components/ItemForm.tsx`.

Theorems at the end settle the frozen claims about this code.
-/

namespace LostFound

/-! ## String helpers

JavaScript string operations are modelled over the character list of a
`String`.  `Char.toLower` matches the ASCII behaviour of
`String.prototype.toLowerCase` on the inputs that matter here.
-/

/-- Character list of a string, lowercased; models `s.toLowerCase()`. -/
def lowerChars (s : String) : List Char := s.data.map Char.toLower

/-- Boolean prefix test on character lists. -/
def charsPrefix : List Char → List Char → Bool
  | [], _ => true
  | _ :: _, [] => false
  | a :: p, b :: l => a == b && charsPrefix p l

/-- Boolean contiguous substring test on character lists. -/
def charsInfix (q : List Char) : List Char → Bool
  | [] => q.isEmpty
  | b :: t => charsPrefix q (b :: t) || charsInfix q t

/-- Models `s.toLowerCase().includes(q.toLowerCase())`. -/
def strIncludes (s q : String) : Bool := charsInfix (lowerChars q) (lowerChars s)

/-- Models `s.startsWith(p)`. -/
def strStartsWith (s p : String) : Bool := charsPrefix p.data s.data

/-- Models the truthiness of `s.trim()`: a string is blank when every
character is whitespace, in which case `s.trim()` is the empty string. -/
def isBlank (s : String) : Bool := s.data.all Char.isWhitespace

/-! ## Data model

`LostFoundItem` mirrors the interface in `src/types/index.ts`.  JavaScript
`Date` values are modelled by the ISO string they were constructed from.
-/

/-- The two item kinds of the `type` field. -/
inductive Kind
  | lost
  | found
deriving DecidableEq, Repr

/-- The item lifecycle marker. -/
inductive Status
  | active
  | claimed
  | resolved
deriving DecidableEq, Repr

/-- A JavaScript `Date`, modelled by the string it was parsed from. -/
structure JsDate where
  iso : String
deriving DecidableEq, Repr

/-- Models `new Date(s)`. -/
def newJsDate (s : String) : JsDate := ⟨s⟩

/-- The domain entity, mirroring `interface LostFoundItem`. -/
structure LostFoundItem where
  id : String
  type : Kind
  title : String
  description : String
  location : String
  contactInfo : String
  imageUrl : Option String
  createdAt : JsDate
  updatedAt : JsDate
  status : Status
deriving DecidableEq, Repr

/-- A stored wire row of the `lost_found_items` collection as read from the
backend.  `image_url` and `status` are nullable columns; `none` stands for
SQL NULL or an absent column, which behave identically under the JavaScript
falsiness tests in `rowToItem`. -/
structure Row where
  id : String
  type : Kind
  title : String
  description : String
  location : String
  contact_info : String
  image_url : Option String
  status : Option Status
  created_at : String
  updated_at : String
deriving DecidableEq, Repr

/-- Embeds `rowToItem` from `src/services/supabase.ts`: snake case columns
map to camel case fields, `image_url || undefined` turns NULL or the empty
string into an absent `imageUrl`, `status || 'active'` defaults a missing
status, and the timestamp strings are parsed into dates. -/
def rowToItem (row : Row) : LostFoundItem :=
  { id := row.id
    type := row.type
    title := row.title
    description := row.description
    location := row.location
    contactInfo := row.contact_info
    imageUrl := match row.image_url with
      | none => none
      | some s => if s = "" then none else some s
    status := row.status.getD Status.active
    createdAt := newJsDate row.created_at
    updatedAt := newJsDate row.updated_at }

/-- A `Partial` item as passed to `addLostFoundItem` and
`updateLostFoundItem`; `none` means the field is absent (`undefined`). -/
structure ItemUpdate where
  type : Option Kind := none
  title : Option String := none
  description : Option String := none
  location : Option String := none
  contactInfo : Option String := none
  imageUrl : Option String := none
  status : Option Status := none
deriving DecidableEq, Repr

/-- The JSON payload produced by `itemToRow` after serialization.  Keys
whose value is `undefined` are dropped by `JSON.stringify`, so the five
text columns are `Option` with `none` meaning the key is absent.
`image_url` is always present because `itemToRow` maps a missing or empty
`imageUrl` to `null` (modelled as `none` here), and `status` is always
present because `itemToRow` defaults it to `active`. -/
structure WriteRow where
  type : Option Kind
  title : Option String
  description : Option String
  location : Option String
  contact_info : Option String
  image_url : Option String
  status : Status
deriving DecidableEq, Repr

/-- Embeds `itemToRow` from `src/services/supabase.ts`: the payload built
for an insert or update.  `image_url := item.imageUrl || null` and
`status := item.status || 'active'` are the two falsy defaults taken
verbatim from the source. -/
def itemToRow (item : ItemUpdate) : WriteRow :=
  { type := item.type
    title := item.title
    description := item.description
    location := item.location
    contact_info := item.contactInfo
    image_url := match item.imageUrl with
      | none => none
      | some s => if s = "" then none else some s
    status := item.status.getD Status.active }

/-- Effect of an UPDATE carrying a `WriteRow` payload on a stored row:
absent keys leave the column unchanged, present keys overwrite it.
`image_url` and `status` are always present in an `itemToRow` payload and
therefore always overwrite.  The client stamps `updated_at` as part of the
request. -/
def applyWrite (stored : Row) (w : WriteRow) (updated_at : String) : Row :=
  { stored with
    type := w.type.getD stored.type
    title := w.title.getD stored.title
    description := w.description.getD stored.description
    location := w.location.getD stored.location
    contact_info := w.contact_info.getD stored.contact_info
    image_url := w.image_url
    status := some w.status
    updated_at := updated_at }

/-- Embeds the successful write path of `updateLostFoundItem`: build the
payload with `itemToRow`, stamp `updated_at`, and issue the UPDATE. -/
def updateLostFoundItem (stored : Row) (updates : ItemUpdate) (now : String) : Row :=
  applyWrite stored (itemToRow updates) now

/-- Effect of an INSERT carrying a `WriteRow` payload: the backend assigns
`id`, `created_at` and `updated_at`.  The create flow always supplies every
column, so the defaults for absent text columns are never exercised. -/
def insertItem (w : WriteRow) (id : String) (now : String) : Row :=
  { id := id
    type := w.type.getD Kind.lost
    title := w.title.getD ""
    description := w.description.getD ""
    location := w.location.getD ""
    contact_info := w.contact_info.getD ""
    image_url := w.image_url
    status := some w.status
    created_at := now
    updated_at := now }

/-- Embeds the successful write path of `addLostFoundItem`. -/
def addLostFoundItem (item : ItemUpdate) (id : String) (now : String) : Row :=
  insertItem (itemToRow item) id now

/-- The text fields collected by the item form, mirroring
`LostFoundItemInput` without the optional file. -/
structure FormInput where
  type : Kind
  title : String
  description : String
  location : String
  contactInfo : String
deriving DecidableEq, Repr

/-- The `updates` object built by the edit branch of `handleSubmitForm` in
`App.tsx`: the five text fields from the form, plus `imageUrl` only when a
new image was uploaded.  No `status` key is ever included. -/
def editUpdates (data : FormInput) (newImageUrl : Option String) : ItemUpdate :=
  { type := some data.type
    title := some data.title
    description := some data.description
    location := some data.location
    contactInfo := some data.contactInfo
    imageUrl := newImageUrl
    status := none }

/-- The object passed to `addLostFoundItem` by the create branch of
`handleSubmitForm`: all form fields, the uploaded image URL when present,
and `status: active`. -/
def createInput (data : FormInput) (imageUrl : Option String) : ItemUpdate :=
  { type := some data.type
    title := some data.title
    description := some data.description
    location := some data.location
    contactInfo := some data.contactInfo
    imageUrl := imageUrl
    status := some Status.active }

/-- Embeds `handleStatusChange` in `App.tsx`: a single field update
carrying only `status`. -/
def handleStatusChange (stored : Row) (s : Status) (now : String) : Row :=
  updateLostFoundItem stored { status := some s } now

/-! ## Concrete rows used by the closed theorems -/

/-- An item created through the create flow of `handleSubmitForm`. -/
def createdBackpackRow : Row :=
  addLostFoundItem
    (createInput ⟨Kind.lost, "Blue Backpack", "Left in library", "Library 2F", "a@b.com"⟩ none)
    "item-1" "2024-01-01T00:00:00Z"

/-- The same item after the user marked it claimed. -/
def claimedBackpackRow : Row :=
  handleStatusChange createdBackpackRow Status.claimed "2024-01-02T00:00:00Z"

/-- An item created with an uploaded image. -/
def imagedRow : Row :=
  addLostFoundItem
    (createInput ⟨Kind.found, "Red Umbrella", "Found at gym", "Gym", "c@d.com"⟩
      (some "https://res.cloudinary.com/demo/lost-found-board/umbrella.jpg"))
    "item-2" "2024-01-01T00:00:00Z"

/-- A wire row whose nullable columns are NULL. -/
def nullColumnsRow : Row :=
  { id := "item-3"
    type := Kind.lost
    title := "Keys"
    description := "Key ring with three keys"
    location := "Cafeteria"
    contact_info := "e@f.com"
    image_url := none
    status := none
    created_at := "2024-01-01T00:00:00Z"
    updated_at := "2024-01-01T00:00:00Z" }

/-! ## Derived view

Embeds the filter and search effect of `App.tsx` (the `useEffect` that
computes `filteredItems` from `items`, `filter` and `searchQuery`).
-/

/-- The three valued filter selection of `App.tsx`. -/
inductive TypeFilter
  | all
  | lost
  | found
deriving DecidableEq, Repr

/-- Models the strict equality `item.type === filter` of the source, where
`filter` is one of the literals `lost` or `found`. -/
def kindMatchesFilter (k : Kind) (f : TypeFilter) : Bool :=
  match k, f with
  | Kind.lost, TypeFilter.lost => true
  | Kind.found, TypeFilter.found => true
  | _, _ => false

/-- First stage: `if (filter !== all) filtered.filter(item.type === filter)`. -/
def stageType (f : TypeFilter) (items : List LostFoundItem) : List LostFoundItem :=
  if f = TypeFilter.all then items
  else items.filter (fun item => kindMatchesFilter item.type f)

/-- Second stage: `filtered.filter(item.status === active || filter === all)`. -/
def stageStatus (f : TypeFilter) (items : List LostFoundItem) : List LostFoundItem :=
  items.filter (fun item => (item.status == Status.active) || (f == TypeFilter.all))

/-- The search predicate of the third stage: the lowercased query is a
substring of the lowercased title, description or location. -/
def matchesQuery (q : String) (item : LostFoundItem) : Bool :=
  strIncludes item.title q || strIncludes item.description q || strIncludes item.location q

/-- Third stage: `if (searchQuery.trim()) filtered.filter(...)`.  The guard
tests the trimmed query for truthiness but the match uses the untrimmed
query. -/
def stageSearch (q : String) (items : List LostFoundItem) : List LostFoundItem :=
  if isBlank q then items else items.filter (matchesQuery q)

/-- The full derived view of `App.tsx`: type filter, then status
visibility, then free text search. -/
def deriveView (items : List LostFoundItem) (f : TypeFilter) (q : String) :
    List LostFoundItem :=
  stageSearch q (stageStatus f (stageType f items))

/-- Reference kind predicate written from the claim: items matching the
kind filter, where `all` passes every kind. -/
def refKindPass (f : TypeFilter) (item : LostFoundItem) : Bool :=
  match f with
  | TypeFilter.all => true
  | TypeFilter.lost => item.type == Kind.lost
  | TypeFilter.found => item.type == Kind.found

/-- Reference status predicate written from the claim: only active status
items pass unless the filter is `all`, in which case every status passes. -/
def refStatusPass (f : TypeFilter) (item : LostFoundItem) : Bool :=
  match f with
  | TypeFilter.all => true
  | _ => item.status == Status.active

/-- Reference search predicate written from the claim: items where the
query is a case insensitive substring of title, description or location; an
empty query passes everything. -/
def refSearchPass (q : String) (item : LostFoundItem) : Bool :=
  (q == "") || matchesQuery q item

/-- The reference derived view written from the claim, to be compared with
`deriveView`. -/
def refDeriveView (items : List LostFoundItem) (f : TypeFilter) (q : String) :
    List LostFoundItem :=
  ((items.filter (refKindPass f)).filter (refStatusPass f)).filter (refSearchPass q)

/-- Amended search predicate: a query that is empty or whitespace only
passes everything; otherwise the untrimmed query must be a case insensitive
substring of title, description or location. -/
def refSearchPassBlank (q : String) (item : LostFoundItem) : Bool :=
  isBlank q || matchesQuery q item

/-- The amended reference derived view: as `refDeriveView`, but with the
blank query rule of `refSearchPassBlank`. -/
def refDeriveViewBlank (items : List LostFoundItem) (f : TypeFilter) (q : String) :
    List LostFoundItem :=
  ((items.filter (refKindPass f)).filter (refStatusPass f)).filter (refSearchPassBlank q)

/-! ## Image optimizer

Embeds `optimizeImage` from `src/utils/imageOptimizer.ts`.  The third party
`imageCompression` routine is an external collaborator, modelled as an
arbitrary oracle passed in as a function; fallible operations return
`Except`.
-/

/-- A browser `File`, reduced to the attributes the optimizer reads. -/
structure MFile where
  name : String
  type : String
  size : Nat
deriving DecidableEq, Repr

/-- The options record handed to the compression oracle. -/
structure CompressionOptions where
  maxSizeMB : Rat
  maxWidthOrHeight : Nat
  useWebWorker : Bool
  fileType : String
deriving DecidableEq, Repr

/-- The caller facing options of `optimizeImage`; absent fields fall back
to the defaults 2.5 MB, 1920 px and web worker on. -/
structure ImageOptimizationOptions where
  maxSizeMB : Option Rat := none
  maxWidthOrHeight : Option Nat := none
  useWebWorker : Option Bool := none
deriving DecidableEq, Repr

/-- Embeds `optimizeImage`: validate the content type and the 10 MB
pre compression ceiling, run the primary compression pass, and when the
result still exceeds 3 MB run a second more aggressive pass (2 MB, 1600 px)
before failing.  Error strings are the messages of the source. -/
def optimizeImage (compress : MFile → CompressionOptions → Except String MFile)
    (file : MFile) (options : ImageOptimizationOptions) : Except String MFile :=
  let maxSizeMB := options.maxSizeMB.getD (2.5 : Rat)
  let maxWidthOrHeight := options.maxWidthOrHeight.getD 1920
  let useWebWorker := options.useWebWorker.getD true
  if !(strStartsWith file.type "image/") then
    Except.error "File must be an image"
  else if file.size > 10 * 1024 * 1024 then
    Except.error "Image is too large. Maximum size is 10MB before optimization."
  else
    match compress file ⟨maxSizeMB, maxWidthOrHeight, useWebWorker, file.type⟩ with
    | Except.error e => Except.error e
    | Except.ok compressedFile =>
      if compressedFile.size > 3 * 1024 * 1024 then
        match compress file ⟨2, 1600, useWebWorker, file.type⟩ with
        | Except.error e => Except.error e
        | Except.ok moreCompressed =>
          if moreCompressed.size > 3 * 1024 * 1024 then
            Except.error "Image could not be compressed below 3MB. Please use a smaller image."
          else Except.ok moreCompressed
      else Except.ok compressedFile

/-- Embeds `createPreviewUrl`, which wraps `URL.createObjectURL`: the
returned object URL is modelled as a deterministic blob reference derived
from the file name. -/
def createPreviewUrl (file : String) : String := "blob:" ++ file

/-! ## Read path

Embeds `getLostFoundItems`, `getLostFoundItemsByType` and
`getLostFoundItem` from `src/services/supabase.ts`.  The network response
is a parameter: `Except.error` models a thrown transport failure caught by
the surrounding `try`, and a `QueryResult` with a `some` error models a
backend rejection reported in the `error` field.
-/

/-- The two required persistence settings; the empty string models an
absent environment variable. -/
structure SupabaseConfig where
  url : String
  anonKey : String
deriving DecidableEq, Repr

/-- The shape of a query response: nullable data plus a nullable error. -/
structure QueryResult (α : Type) where
  data : Option α
  error : Option String
deriving DecidableEq, Repr

/-- The `try` block of `getLostFoundItems`: missing configuration or a
backend reported error yields an empty list, a thrown transport failure
propagates as `Except.error`, and a successful response is mapped through
`rowToItem`. -/
def getLostFoundItemsTry (cfg : SupabaseConfig)
    (resp : Except String (QueryResult (List Row))) :
    Except String (List LostFoundItem) :=
  if cfg.url = "" ∨ cfg.anonKey = "" then Except.ok []
  else match resp with
    | Except.error e => Except.error e
    | Except.ok r =>
      match r.error with
      | some _ => Except.ok []
      | none => Except.ok ((r.data.getD []).map rowToItem)

/-- Embeds `getLostFoundItems`: the surrounding `catch` converts any thrown
error into an empty result, so the function never returns `Except.error`. -/
def getLostFoundItems (cfg : SupabaseConfig)
    (resp : Except String (QueryResult (List Row))) :
    Except String (List LostFoundItem) :=
  match getLostFoundItemsTry cfg resp with
  | Except.ok l => Except.ok l
  | Except.error _ => Except.ok []

/-- The `try` block of `getLostFoundItemsByType`; the kind filter itself is
applied by the backend, so the response parameter already carries the
filtered rows.  The failure policy is identical to `getLostFoundItems`. -/
def getLostFoundItemsByTypeTry (cfg : SupabaseConfig) (ty : Kind)
    (resp : Except String (QueryResult (List Row))) :
    Except String (List LostFoundItem) :=
  if cfg.url = "" ∨ cfg.anonKey = "" then Except.ok []
  else match resp with
    | Except.error e => Except.error e
    | Except.ok r =>
      match r.error with
      | some _ => Except.ok []
      | none => Except.ok ((r.data.getD []).map rowToItem)

/-- Embeds `getLostFoundItemsByType` with its surrounding `catch`. -/
def getLostFoundItemsByType (cfg : SupabaseConfig) (ty : Kind)
    (resp : Except String (QueryResult (List Row))) :
    Except String (List LostFoundItem) :=
  match getLostFoundItemsByTypeTry cfg ty resp with
  | Except.ok l => Except.ok l
  | Except.error _ => Except.ok []

/-- The `try` block of `getLostFoundItem`: a single row read returning
`none` instead of an empty list on the handled failures. -/
def getLostFoundItemTry (cfg : SupabaseConfig) (id : String)
    (resp : Except String (QueryResult Row)) :
    Except String (Option LostFoundItem) :=
  if cfg.url = "" ∨ cfg.anonKey = "" then Except.ok none
  else match resp with
    | Except.error e => Except.error e
    | Except.ok r =>
      match r.error with
      | some _ => Except.ok none
      | none => Except.ok (r.data.map rowToItem)

/-- Embeds `getLostFoundItem` with its surrounding `catch`. -/
def getLostFoundItem (cfg : SupabaseConfig) (id : String)
    (resp : Except String (QueryResult Row)) :
    Except String (Option LostFoundItem) :=
  match getLostFoundItemTry cfg id resp with
  | Except.ok o => Except.ok o
  | Except.error _ => Except.ok none

/-- A read fails when the configuration is absent, the transport throws, or
the backend reports an error. -/
def readFailure {α : Type} (cfg : SupabaseConfig)
    (resp : Except String (QueryResult α)) : Prop :=
  cfg.url = "" ∨ cfg.anonKey = "" ∨ (∃ e, resp = Except.error e) ∨
    (∃ r, resp = Except.ok r ∧ r.error.isSome)

/-! ## Subscription

Embeds `subscribeToLostFoundItems`.  Deliveries to the callback are
modelled as a trace under the sequential event loop of the runtime: the
initial load is issued at subscription time and each later change event or
poll tick triggers one re fetch.  `eventResps` carries the store response
seen by each of those later fetches.
-/

/-- One callback invocation, tagged by what triggered it: the initial load
issued by `subscribe`, or a later change event or poll tick. -/
inductive Delivery
  | initial (items : List LostFoundItem)
  | change (items : List LostFoundItem)
deriving DecidableEq, Repr

/-- The list a fetch delivers to the callback; `getLostFoundItems` never
returns an error, so the error arm is unreachable. -/
def getLostFoundItemsOk (cfg : SupabaseConfig)
    (resp : Except String (QueryResult (List Row))) : List LostFoundItem :=
  match getLostFoundItems cfg resp with
  | Except.ok l => l
  | Except.error _ => []

/-- Embeds `subscribeToLostFoundItems` as the trace of callback
invocations.  With missing configuration the polling fallback loads once
immediately and then re fetches every 2 seconds; with configuration present
the realtime path loads once immediately and re fetches on every change
event.  Both paths produce the initial delivery first. -/
def subscribeToLostFoundItems (cfg : SupabaseConfig)
    (initResp : Except String (QueryResult (List Row)))
    (eventResps : List (Except String (QueryResult (List Row)))) : List Delivery :=
  if cfg.url = "" ∨ cfg.anonKey = "" then
    Delivery.initial (getLostFoundItemsOk cfg initResp) ::
      eventResps.map (fun r => Delivery.change (getLostFoundItemsOk cfg r))
  else
    Delivery.initial (getLostFoundItemsOk cfg initResp) ::
      eventResps.map (fun r => Delivery.change (getLostFoundItemsOk cfg r))

/-! ## Item form preview lifecycle

Embeds the preview handling of `components/ItemForm.tsx` as a state
machine.  The ghost fields `createdUrls` and `revokedUrls` record every
object URL the form created with `createPreviewUrl` and every one it
released with `revokePreviewUrl`. -/

/-- The form state: the `item` prop image of edit mode, the current
preview, the selected file, the ghost resource ledgers and whether the
form is still mounted. -/
structure FormState where
  itemImageUrl : Option String
  imagePreview : Option String
  imageFile : Option String
  createdUrls : List String
  revokedUrls : List String
  mounted : Bool
deriving DecidableEq, Repr

/-- Initial state of the form: in edit mode the preview starts as the item
image URL, in create mode there is no preview. -/
def initForm (itemImageUrl : Option String) : FormState :=
  { itemImageUrl := itemImageUrl
    imagePreview := itemImageUrl
    imageFile := none
    createdUrls := []
    revokedUrls := []
    mounted := true }

/-- The user interactions that touch the preview. -/
inductive FormEvent
  | selectImage (file : String)
  | removeImage
  | submitOk
  | cancel
deriving DecidableEq, Repr

/-- Truthiness of `item?.imageUrl` in the revocation guard. -/
def itemImageTruthy (s : FormState) : Bool :=
  match s.itemImageUrl with
  | none => false
  | some u => !(u == "")

/-- One step of the form.  `selectImage` models `handleImageChange` for a
valid image file; it can only fire while no preview is shown because the
file input is unmounted otherwise.  `removeImage` models
`handleRemoveImage`, `submitOk` a successful `handleSubmit` after which the
parent closes the form, and `cancel` the parent closing the form without
submitting.  The revocation guard `imagePreview && !item?.imageUrl` is
taken verbatim from the source. -/
def formStep (s : FormState) (e : FormEvent) : FormState :=
  if !s.mounted then s
  else
    match e with
    | FormEvent.selectImage f =>
      match s.imagePreview with
      | some _ => s
      | none =>
        let preview := createPreviewUrl f
        { s with
          imageFile := some f
          imagePreview := some preview
          createdUrls := preview :: s.createdUrls }
    | FormEvent.removeImage =>
      match s.imagePreview with
      | none => s
      | some p =>
        { s with
          imagePreview := none
          imageFile := none
          revokedUrls := if !(itemImageTruthy s) then p :: s.revokedUrls else s.revokedUrls }
    | FormEvent.submitOk =>
      { s with
        revokedUrls :=
          match s.imagePreview with
          | some p => if !(itemImageTruthy s) then p :: s.revokedUrls else s.revokedUrls
          | none => s.revokedUrls
        mounted := false }
    | FormEvent.cancel => { s with mounted := false }

/-- Run the form over a sequence of events. -/
def runForm (s : FormState) (events : List FormEvent) : FormState :=
  events.foldl formStep s

/-! ## Further concrete inputs used by closed theorems and witnesses -/

/-- An active item whose text fields contain no whitespace. -/
def spacelessItem : LostFoundItem :=
  { id := "item-4"
    type := Kind.lost
    title := "Wallet"
    description := "Brown"
    location := "Gym"
    contactInfo := "g@h.com"
    imageUrl := none
    createdAt := newJsDate "2024-01-01T00:00:00Z"
    updatedAt := newJsDate "2024-01-01T00:00:00Z"
    status := Status.active }

/-- A compression oracle that always returns a 1000 byte image. -/
def sampleCompress : MFile → CompressionOptions → Except String MFile :=
  fun _ _ => Except.ok { name := "c.jpg", type := "image/jpeg", size := 1000 }

/-- A small JPEG input file. -/
def sampleUpload : MFile := { name := "a.jpg", type := "image/jpeg", size := 5000 }

/-! ## Helper lemmas on list filtering -/

/-- Pointwise equal predicates filter identically. -/
theorem filter_ext {α : Type} (p q : α → Bool) (h : ∀ a, p a = q a) :
    ∀ l : List α, l.filter p = l.filter q := by
  intro l
  induction l with
  | nil => rfl
  | cons a t ih => simp [List.filter_cons, h a, ih]

/-- A predicate that always holds filters nothing out. -/
theorem filter_all_true {α : Type} (p : α → Bool) (h : ∀ a, p a = true) :
    ∀ l : List α, l.filter p = l := by
  intro l
  induction l with
  | nil => rfl
  | cons a t ih => simp [List.filter_cons, h a, ih]

/-- Two consecutive filters collapse into one conjunction filter. -/
theorem filter_filter_and {α : Type} (p q : α → Bool) :
    ∀ l : List α, (l.filter p).filter q = l.filter (fun a => p a && q a) := by
  intro l
  induction l with
  | nil => rfl
  | cons a t ih =>
    by_cases h : p a = true <;> by_cases h2 : q a = true <;>
      simp [List.filter_cons, h, h2, ih]

/-- Three consecutive filters collapse into one right associated
conjunction filter. -/
theorem filter3_collapse {α : Type} (p q r : α → Bool) (l : List α) :
    ((l.filter p).filter q).filter r = l.filter (fun a => p a && (q a && r a)) := by
  rw [filter_filter_and, filter_filter_and]

/-- The first derivation stage is a filter with the reference kind
predicate. -/
theorem stageType_eq_filter (f : TypeFilter) (items : List LostFoundItem) :
    stageType f items = items.filter (refKindPass f) := by
  cases f with
  | all =>
    rw [stageType, if_pos rfl]
    exact (filter_all_true _ (fun a => rfl) items).symm
  | lost =>
    rw [stageType, if_neg (fun h => TypeFilter.noConfusion h)]
    exact filter_ext _ _
      (fun a => by cases h : a.type <;> simp [kindMatchesFilter, refKindPass, h]) items
  | found =>
    rw [stageType, if_neg (fun h => TypeFilter.noConfusion h)]
    exact filter_ext _ _
      (fun a => by cases h : a.type <;> simp [kindMatchesFilter, refKindPass, h]) items

/-- The second derivation stage is a filter with the reference status
predicate. -/
theorem stageStatus_eq_filter (f : TypeFilter) (items : List LostFoundItem) :
    stageStatus f items = items.filter (refStatusPass f) := by
  rw [stageStatus]
  exact filter_ext _ _
    (fun a => by cases f <;> simp [refStatusPass]) items

/-- The third derivation stage is a filter with the blank aware search
predicate. -/
theorem stageSearch_eq_filter (q : String) (items : List LostFoundItem) :
    stageSearch q items = items.filter (refSearchPassBlank q) := by
  rw [stageSearch]
  by_cases hb : isBlank q = true
  · rw [if_pos hb]
    exact (filter_all_true _ (fun a => by simp [refSearchPassBlank, hb]) items).symm
  · rw [if_neg hb]
    have hb2 : isBlank q = false := Bool.not_eq_true _ |>.mp hb
    exact filter_ext _ _ (fun a => by simp [refSearchPassBlank, hb2]) items

/-! ## Claim theorems -/

/-- C1: the claim states that no exposed operation ever restores `status`
to `active`.  The code violates it: submitting the edit form for a claimed
item builds an update without a `status` key, and `itemToRow` defaults the
missing status to `active`, so the UPDATE silently reactivates the item.
This theorem evaluates the embedded code at that failing input. -/
theorem edit_submission_restores_active :
    claimedBackpackRow.status = some Status.claimed ∧
    (updateLostFoundItem claimedBackpackRow
        (editUpdates ⟨Kind.lost, "Blue Backpack", "Left in library", "Library 2F", "a@b.com"⟩ none)
        "2024-01-03T00:00:00Z").status = some Status.active :=
  ⟨rfl, rfl⟩

/-- C2 counterexample: the claim states that `kind` is immutable across
edits, but the edit form exposes the type selector and the edit update
carries the selected type, so one edit submission changes a lost item into
a found item. -/
theorem edit_changes_kind_counterexample :
    createdBackpackRow.type = Kind.lost ∧
    (updateLostFoundItem createdBackpackRow
        (editUpdates ⟨Kind.found, "Blue Backpack", "Left in library", "Library 2F", "a@b.com"⟩ none)
        "2024-01-02T00:00:00Z").type ≠ Kind.lost :=
  ⟨rfl, fun h => Kind.noConfusion h⟩

/-- C2 (amended): `kind` is set at creation but is not immutable; every
edit submission stores exactly the type supplied in the form, so the stored
type after an edit equals the submitted type, not necessarily the creation
type. -/
theorem edit_submission_sets_submitted_type (stored : Row) (data : FormInput)
    (newImageUrl : Option String) (now : String) :
    (updateLostFoundItem stored (editUpdates data newImageUrl) now).type = data.type :=
  rfl

/-- C3: the claim states that the status change flow, which supplies only
`status`, leaves every other stored field including `image_url` unchanged.
The code violates it: `itemToRow` maps the absent `imageUrl` to `null`,
which is serialized into the UPDATE payload, so the single field status
change erases the stored image reference.  The text columns are dropped as
`undefined` and stay unchanged, as the last conjunct shows. -/
theorem status_change_clears_image_url :
    imagedRow.image_url = some "https://res.cloudinary.com/demo/lost-found-board/umbrella.jpg" ∧
    (handleStatusChange imagedRow Status.claimed "2024-01-02T00:00:00Z").image_url = none ∧
    (handleStatusChange imagedRow Status.claimed "2024-01-02T00:00:00Z").status =
      some Status.claimed ∧
    (handleStatusChange imagedRow Status.claimed "2024-01-02T00:00:00Z").title = imagedRow.title :=
  ⟨rfl, rfl, rfl, rfl⟩

/-- C5 counterexample: for the whitespace only query, the code skips the
search stage because the trimmed query is empty, while the reference
definition of the claim treats the query as nonempty and requires it to be
a substring, so the two derived views differ. -/
theorem deriveView_ne_ref_on_whitespace_query :
    deriveView [spacelessItem] TypeFilter.all " " ≠
      refDeriveView [spacelessItem] TypeFilter.all " " := by
  intro h
  have h1 : deriveView [spacelessItem] TypeFilter.all " " = [spacelessItem] := rfl
  have h2 : refDeriveView [spacelessItem] TypeFilter.all " " = [] := rfl
  rw [h1, h2] at h
  exact List.noConfusion h

/-- C5 (amended): the derived view equals the reference definition once the
pass everything rule covers every query that is empty or whitespace only,
with non blank queries matched untrimmed: kind filter, then the active or
all status rule, then the case insensitive substring search. -/
theorem deriveView_eq_ref_blank (items : List LostFoundItem) (f : TypeFilter) (q : String) :
    deriveView items f q = refDeriveViewBlank items f q := by
  unfold deriveView refDeriveViewBlank
  rw [stageType_eq_filter, stageStatus_eq_filter, stageSearch_eq_filter]

/-- C6: the three derivation stages of the view computation, namely the
kind filter, the active or all status visibility rule, and the case
insensitive text search, commute: every one of the six application orders
produces the same derived view. -/
theorem filter_stages_commute (items : List LostFoundItem) (f : TypeFilter) (q : String) :
    stageSearch q (stageStatus f (stageType f items)) =
        stageSearch q (stageType f (stageStatus f items)) ∧
    stageSearch q (stageStatus f (stageType f items)) =
        stageStatus f (stageSearch q (stageType f items)) ∧
    stageSearch q (stageStatus f (stageType f items)) =
        stageStatus f (stageType f (stageSearch q items)) ∧
    stageSearch q (stageStatus f (stageType f items)) =
        stageType f (stageSearch q (stageStatus f items)) ∧
    stageSearch q (stageStatus f (stageType f items)) =
        stageType f (stageStatus f (stageSearch q items)) := by
  simp only [stageType_eq_filter, stageStatus_eq_filter, stageSearch_eq_filter,
    filter3_collapse]
  refine ⟨?_, ?_, ?_, ?_, ?_⟩ <;>
    exact filter_ext _ _
      (fun a => by
        cases refKindPass f a <;> cases refStatusPass f a <;>
          cases refSearchPassBlank q a <;> rfl) items

/-- C10: the row to entity mapping `rowToItem` yields status `active`
whenever the status column is NULL or absent, yields an absent `imageUrl`
whenever the `image_url` column is NULL or the empty string, and maps the
remaining columns one to one, parsing the timestamp columns into dates. -/
theorem rowToItem_column_mapping (row : Row) :
    (row.status = none → (rowToItem row).status = Status.active) ∧
    ((row.image_url = none ∨ row.image_url = some "") → (rowToItem row).imageUrl = none) ∧
    (rowToItem row).id = row.id ∧
    (rowToItem row).type = row.type ∧
    (rowToItem row).title = row.title ∧
    (rowToItem row).description = row.description ∧
    (rowToItem row).location = row.location ∧
    (rowToItem row).contactInfo = row.contact_info ∧
    (rowToItem row).createdAt = newJsDate row.created_at ∧
    (rowToItem row).updatedAt = newJsDate row.updated_at := by
  refine ⟨?_, ?_, rfl, rfl, rfl, rfl, rfl, rfl, rfl, rfl⟩
  · intro h
    simp [rowToItem, h]
  · rintro (h | h) <;> simp [rowToItem, h]

/-- Witness for C10: the mapping evaluated on a concrete row whose
nullable columns are NULL. -/
theorem rowToItem_column_mapping_witness :
    (rowToItem nullColumnsRow).status = Status.active ∧
    (rowToItem nullColumnsRow).imageUrl = none :=
  ⟨(rowToItem_column_mapping nullColumnsRow).1 rfl,
   (rowToItem_column_mapping nullColumnsRow).2.1 (Or.inl rfl)⟩

/-- C4: for every compression oracle and every input whose declared
content type is an image and whose size is at most 10 MB, a successful
result of `optimizeImage` is at most 3 MB; the guard before each `return`
makes a silent success above 3 MB impossible. -/
theorem optimizeImage_result_le_3mb
    (compress : MFile → CompressionOptions → Except String MFile)
    (file : MFile) (options : ImageOptimizationOptions) (res : MFile)
    (htype : strStartsWith file.type "image/" = true)
    (hsize : file.size ≤ 10 * 1024 * 1024)
    (hok : optimizeImage compress file options = Except.ok res) :
    res.size ≤ 3 * 1024 * 1024 := by
  simp only [optimizeImage, htype, Bool.not_true, Bool.false_eq_true, if_false] at hok
  rw [if_neg (Nat.not_lt.mpr hsize)] at hok
  split at hok
  · exact Except.noConfusion hok
  · split at hok
    · split at hok
      · exact Except.noConfusion hok
      · split at hok
        · exact Except.noConfusion hok
        · injection hok with h
          subst h
          omega
    · injection hok with h
      subst h
      omega

/-- Witness for C4: a concrete 5000 byte JPEG with a concrete oracle is
optimized to a 1000 byte result, which is below 3 MB. -/
theorem optimizeImage_result_le_3mb_witness :
    ({ name := "c.jpg", type := "image/jpeg", size := 1000 } : MFile).size ≤ 3 * 1024 * 1024 :=
  optimizeImage_result_le_3mb sampleCompress sampleUpload {}
    { name := "c.jpg", type := "image/jpeg", size := 1000 }
    (by decide) (by decide) rfl

/-- Helper: `getLostFoundItems` always returns `Except.ok`. -/
theorem getLostFoundItems_never_throws (cfg : SupabaseConfig)
    (resp : Except String (QueryResult (List Row))) :
    ∃ l, getLostFoundItems cfg resp = Except.ok l := by
  unfold getLostFoundItems
  cases h : getLostFoundItemsTry cfg resp with
  | ok l => exact ⟨l, rfl⟩
  | error e => exact ⟨[], rfl⟩

/-- Helper: `getLostFoundItemsByType` always returns `Except.ok`. -/
theorem getLostFoundItemsByType_never_throws (cfg : SupabaseConfig) (ty : Kind)
    (resp : Except String (QueryResult (List Row))) :
    ∃ l, getLostFoundItemsByType cfg ty resp = Except.ok l := by
  unfold getLostFoundItemsByType
  cases h : getLostFoundItemsByTypeTry cfg ty resp with
  | ok l => exact ⟨l, rfl⟩
  | error e => exact ⟨[], rfl⟩

/-- Helper: `getLostFoundItem` always returns `Except.ok`. -/
theorem getLostFoundItem_never_throws (cfg : SupabaseConfig) (id : String)
    (resp : Except String (QueryResult Row)) :
    ∃ o, getLostFoundItem cfg id resp = Except.ok o := by
  unfold getLostFoundItem
  cases h : getLostFoundItemTry cfg id resp with
  | ok o => exact ⟨o, rfl⟩
  | error e => exact ⟨none, rfl⟩

/-- Helper: on any handled failure, `getLostFoundItems` returns the empty
list. -/
theorem getLostFoundItems_on_failure (cfg : SupabaseConfig)
    (resp : Except String (QueryResult (List Row))) (h : readFailure cfg resp) :
    getLostFoundItems cfg resp = Except.ok [] := by
  unfold getLostFoundItems getLostFoundItemsTry
  by_cases hc : cfg.url = "" ∨ cfg.anonKey = ""
  · rw [if_pos hc]
  · rw [if_neg hc]
    rcases h with h | h | ⟨e, rfl⟩ | ⟨r, rfl, hr⟩
    · exact absurd (Or.inl h) hc
    · exact absurd (Or.inr h) hc
    · rfl
    · obtain ⟨e, he⟩ := Option.isSome_iff_exists.mp hr
      simp [he]

/-- Helper: on any handled failure, `getLostFoundItemsByType` returns the
empty list. -/
theorem getLostFoundItemsByType_on_failure (cfg : SupabaseConfig) (ty : Kind)
    (resp : Except String (QueryResult (List Row))) (h : readFailure cfg resp) :
    getLostFoundItemsByType cfg ty resp = Except.ok [] := by
  unfold getLostFoundItemsByType getLostFoundItemsByTypeTry
  by_cases hc : cfg.url = "" ∨ cfg.anonKey = ""
  · rw [if_pos hc]
  · rw [if_neg hc]
    rcases h with h | h | ⟨e, rfl⟩ | ⟨r, rfl, hr⟩
    · exact absurd (Or.inl h) hc
    · exact absurd (Or.inr h) hc
    · rfl
    · obtain ⟨e, he⟩ := Option.isSome_iff_exists.mp hr
      simp [he]

/-- Helper: on any handled failure, `getLostFoundItem` returns `none`. -/
theorem getLostFoundItem_on_failure (cfg : SupabaseConfig) (id : String)
    (resp : Except String (QueryResult Row)) (h : readFailure cfg resp) :
    getLostFoundItem cfg id resp = Except.ok none := by
  unfold getLostFoundItem getLostFoundItemTry
  by_cases hc : cfg.url = "" ∨ cfg.anonKey = ""
  · rw [if_pos hc]
  · rw [if_neg hc]
    rcases h with h | h | ⟨e, rfl⟩ | ⟨r, rfl, hr⟩
    · exact absurd (Or.inl h) hc
    · exact absurd (Or.inr h) hc
    · rfl
    · obtain ⟨e, he⟩ := Option.isSome_iff_exists.mp hr
      simp [he]

/-- C7: every read call always returns `Except.ok` (it never throws), and
any transport failure, backend error, or absent persistence configuration
yields the empty collection, or `none` for the single item read. -/
theorem reads_never_throw (cfg : SupabaseConfig)
    (respL respT : Except String (QueryResult (List Row)))
    (respS : Except String (QueryResult Row)) (ty : Kind) (id : String) :
    (∃ l, getLostFoundItems cfg respL = Except.ok l) ∧
    (∃ l, getLostFoundItemsByType cfg ty respT = Except.ok l) ∧
    (∃ o, getLostFoundItem cfg id respS = Except.ok o) ∧
    (readFailure cfg respL → getLostFoundItems cfg respL = Except.ok []) ∧
    (readFailure cfg respT → getLostFoundItemsByType cfg ty respT = Except.ok []) ∧
    (readFailure cfg respS → getLostFoundItem cfg id respS = Except.ok none) :=
  ⟨getLostFoundItems_never_throws cfg respL,
   getLostFoundItemsByType_never_throws cfg ty respT,
   getLostFoundItem_never_throws cfg id respS,
   getLostFoundItems_on_failure cfg respL,
   getLostFoundItemsByType_on_failure cfg ty respT,
   getLostFoundItem_on_failure cfg id respS⟩

/-- Witness for C7: a transport failure with missing configuration yields
the empty list, and a backend reported error on the single row read yields
`none`; neither read throws. -/
theorem reads_never_throw_witness :
    getLostFoundItems ⟨"", ""⟩ (Except.error "network unreachable") = Except.ok [] ∧
    getLostFoundItem ⟨"https://proj.supabase.co", "anon-key"⟩ "item-1"
        (Except.ok ⟨none, some "row not found"⟩) = Except.ok none :=
  ⟨(reads_never_throw ⟨"", ""⟩ (Except.error "network unreachable")
      (Except.ok ⟨some [], none⟩) (Except.ok ⟨none, none⟩) Kind.lost "item-1").2.2.2.1
      (Or.inl rfl),
   (reads_never_throw ⟨"https://proj.supabase.co", "anon-key"⟩ (Except.ok ⟨some [], none⟩)
      (Except.ok ⟨some [], none⟩) (Except.ok ⟨none, some "row not found"⟩) Kind.lost
      "item-1").2.2.2.2.2
      (Or.inr (Or.inr (Or.inr ⟨⟨none, some "row not found"⟩, rfl, rfl⟩)))⟩

/-- Helper: both subscription paths produce the initial delivery followed
by one change delivery per later event. -/
theorem subscribe_trace_shape (cfg : SupabaseConfig)
    (initResp : Except String (QueryResult (List Row)))
    (eventResps : List (Except String (QueryResult (List Row)))) :
    subscribeToLostFoundItems cfg initResp eventResps =
      Delivery.initial (getLostFoundItemsOk cfg initResp) ::
        eventResps.map (fun r => Delivery.change (getLostFoundItemsOk cfg r)) := by
  unfold subscribeToLostFoundItems
  split <;> rfl

/-- C8: on both the realtime path and the polling fallback, the
subscription delivers the full current list first: the head of the
delivery trace is the initial snapshot, and every change driven delivery
sits at a strictly later position, for any store contents including an
empty store. -/
theorem subscribe_initial_before_changes (cfg : SupabaseConfig)
    (initResp : Except String (QueryResult (List Row)))
    (eventResps : List (Except String (QueryResult (List Row)))) :
    (subscribeToLostFoundItems cfg initResp eventResps).head? =
      some (Delivery.initial (getLostFoundItemsOk cfg initResp)) ∧
    ∀ i items, (subscribeToLostFoundItems cfg initResp eventResps).get? i =
      some (Delivery.change items) → 1 ≤ i := by
  rw [subscribe_trace_shape]
  refine ⟨rfl, ?_⟩
  intro i items h
  cases i with
  | zero =>
    rw [List.get?_cons_zero] at h
    injection h with h2
    exact Delivery.noConfusion h2
  | succ n => exact Nat.succ_le_succ (Nat.zero_le n)

/-- Witness for C8: subscribing with missing configuration (the polling
fallback) over an empty store still delivers the initial empty snapshot
first. -/
theorem subscribe_initial_before_changes_witness :
    (subscribeToLostFoundItems ⟨"", ""⟩ (Except.ok ⟨some [], none⟩) []).head? =
      some (Delivery.initial []) :=
  (subscribe_initial_before_changes ⟨"", ""⟩ (Except.ok ⟨some [], none⟩) []).1

/-- C9: the claim states that every preview the form creates is released
once no longer displayed.  The code violates it: in edit mode for an item
that already has an image, the guard `imagePreview && !item?.imageUrl`
never fires, so after removing the existing image, selecting a new file
and removing it again, the created preview is discarded with an empty
revocation ledger.  This theorem evaluates the embedded form at that
failing trace. -/
theorem form_discards_unreleased_preview :
    (runForm (initForm (some "https://res.cloudinary.com/demo/lost-found-board/old.jpg"))
        [FormEvent.removeImage, FormEvent.selectImage "new.png",
          FormEvent.removeImage]).createdUrls = [createPreviewUrl "new.png"] ∧
    (runForm (initForm (some "https://res.cloudinary.com/demo/lost-found-board/old.jpg"))
        [FormEvent.removeImage, FormEvent.selectImage "new.png",
          FormEvent.removeImage]).revokedUrls = [] ∧
    (runForm (initForm (some "https://res.cloudinary.com/demo/lost-found-board/old.jpg"))
        [FormEvent.removeImage, FormEvent.selectImage "new.png",
          FormEvent.removeImage]).imagePreview = none :=
  ⟨rfl, rfl, rfl⟩

end LostFound
